import Mathlib

/-!
Shallow embedding, in Lean 4, of the checkout pricing pipeline of the
wyattxxxcole web shop: the tax calculator service, the shipping calculator
service, and the checkout routes (quote calculation and order completion).
JavaScript numbers are modelled as exact rationals (ℚ); `Math.round(x*100)/100`
is modelled by `round2`; JavaScript's `a || b` numeric/string defaulting is
modelled by `jsOrQ` / `jsOrStr`; values that may be `undefined` are modelled
with `Option`.
-/

namespace Shop

/-- JavaScript `Math.round`: round half toward positive infinity. -/
def jsRound (x : ℚ) : ℤ := ⌊x + 1/2⌋

/-- `Math.round(x * 100) / 100`: round to 2 decimal places. -/
def round2 (x : ℚ) : ℚ := (jsRound (x * 100) : ℚ) / 100

/-- JavaScript `x || d` where `x` is a possibly-undefined number:
the default is used when `x` is `undefined` or `0` (falsy). -/
def jsOrQ (x : Option ℚ) (d : ℚ) : ℚ :=
  match x with
  | some v => if v = 0 then d else v
  | none => d

/-- JavaScript `x || d` where `x` is a possibly-undefined string:
the default is used when `x` is `undefined` or `""` (falsy). -/
def jsOrStr (x : Option String) (d : String) : String :=
  match x with
  | some s => if s = "" then d else s
  | none => d

/-- `String.toUpperCase()` (ASCII, which covers every code in the tables). -/
def jsToUpper (s : String) : String := s.map Char.toUpper

/-- Own-key lookup in an association-list model of a JS object literal. -/
def lookup (tbl : List (String × α)) (key : String) : Option α :=
  (tbl.find? (fun e => e.1 = key)).map (·.2)

/-- The property names every object literal inherits from `Object.prototype`:
bracket access with one of these keys yields a truthy non-numeric value (a
built-in function, or `Object.prototype` itself for `__proto__`), never
`undefined`. -/
def objectProtoKeys : List String :=
  ["constructor", "hasOwnProperty", "isPrototypeOf", "propertyIsEnumerable",
   "toLocaleString", "toString", "valueOf", "__proto__",
   "__defineGetter__", "__defineSetter__", "__lookupGetter__", "__lookupSetter__"]

/-- The result of JS bracket access `obj[key]` on an object literal: an own
entry, a truthy inherited `Object.prototype` property (carrying its key), or
`undefined`. -/
inductive JsProp (α : Type) where
  | own (v : α)
  | builtin (key : String)
  | undefined
deriving Repr, DecidableEq

/-- `obj[key]` with JS prototype-chain semantics: own keys shadow the
prototype; otherwise an `Object.prototype` property name hits the inherited
value; otherwise `undefined`. -/
def jsGet (tbl : List (String × α)) (key : String) : JsProp α :=
  match lookup tbl key with
  | some v => .own v
  | none => if key ∈ objectProtoKeys then .builtin key else .undefined

/-- Truthiness of `obj[key]` for a numeric-valued table: a rate is truthy iff
nonzero; an inherited `Object.prototype` property is truthy; `undefined` is
falsy. -/
def JsProp.isTruthyNum : JsProp ℚ → Bool
  | .own v => v != 0
  | .builtin _ => true
  | .undefined => false

/-- `(obj[k]).name` for an inherited `Object.prototype` property `k`:
`constructor` is the `Object` function (whose `name` is `"Object"`);
`__proto__` is `Object.prototype` itself, which has no `name` (`undefined`);
every other inherited property is a built-in function whose `name` equals its
key. -/
def builtinDotName (k : String) : Option String :=
  if k = "constructor" then some "Object"
  else if k = "__proto__" then none
  else some k

/-! ## Tax calculator service (`tax-calculator.js`) -/

/-- `US_STATE_TAX_RATES` (2024 flat state sales-tax rates). -/
def US_STATE_TAX_RATES : List (String × ℚ) :=
  [("AL", 4/100), ("AK", 0), ("AZ", 56/1000), ("AR", 65/1000), ("CA", 725/10000),
   ("CO", 29/1000), ("CT", 635/10000), ("DE", 0), ("FL", 6/100), ("GA", 4/100),
   ("HI", 4/100), ("ID", 6/100), ("IL", 625/10000), ("IN", 7/100), ("IA", 6/100),
   ("KS", 65/1000), ("KY", 6/100), ("LA", 445/10000), ("ME", 55/1000),
   ("MD", 6/100), ("MA", 625/10000), ("MI", 6/100), ("MN", 6875/100000),
   ("MS", 7/100), ("MO", 4225/100000), ("MT", 0), ("NE", 55/1000),
   ("NV", 685/10000), ("NH", 0), ("NJ", 6625/100000), ("NM", 5125/100000),
   ("NY", 4/100), ("NC", 475/10000), ("ND", 5/100), ("OH", 575/10000),
   ("OK", 45/1000), ("OR", 0), ("PA", 6/100), ("RI", 7/100), ("SC", 6/100),
   ("SD", 45/1000), ("TN", 7/100), ("TX", 625/10000), ("UT", 485/10000),
   ("VT", 6/100), ("VA", 43/1000), ("WA", 65/1000), ("WV", 6/100),
   ("WI", 5/100), ("WY", 4/100), ("DC", 6/100), ("PR", 105/1000)]

/-- `INTERNATIONAL_VAT_RATES`. -/
def INTERNATIONAL_VAT_RATES : List (String × ℚ) :=
  [("AT", 20/100), ("BE", 21/100), ("BG", 20/100), ("HR", 25/100), ("CY", 19/100),
   ("CZ", 21/100), ("DK", 25/100), ("EE", 20/100), ("FI", 24/100), ("FR", 20/100),
   ("DE", 19/100), ("GR", 24/100), ("HU", 27/100), ("IE", 23/100), ("IT", 22/100),
   ("LV", 21/100), ("LT", 21/100), ("LU", 17/100), ("MT", 18/100), ("NL", 21/100),
   ("PL", 23/100), ("PT", 23/100), ("RO", 19/100), ("SK", 20/100), ("SI", 22/100),
   ("ES", 21/100), ("SE", 25/100), ("GB", 20/100), ("CH", 77/1000), ("NO", 25/100),
   ("AU", 10/100), ("NZ", 15/100), ("CA", 5/100), ("JP", 10/100), ("SG", 8/100),
   ("KR", 10/100)]

/-- `CANADIAN_PROVINCIAL_TAX` (PST / QST / provincial portion of HST). -/
def CANADIAN_PROVINCIAL_TAX : List (String × ℚ) :=
  [("AB", 0), ("BC", 7/100), ("MB", 7/100), ("NB", 10/100), ("NL", 10/100),
   ("NT", 0), ("NS", 10/100), ("NU", 0), ("ON", 8/100), ("PE", 10/100),
   ("QC", 9975/100000), ("SK", 6/100), ("YT", 0)]

/-- An entry of `TAX_CATEGORIES`. -/
structure CategoryInfo where
  taxable : Bool
  reducedRate : Bool
deriving Repr, DecidableEq

/-- `TAX_CATEGORIES`. -/
def TAX_CATEGORIES : List (String × CategoryInfo) :=
  [("apparel", ⟨true, false⟩), ("digital", ⟨true, false⟩), ("prints", ⟨true, false⟩),
   ("accessories", ⟨true, false⟩), ("limited", ⟨true, false⟩)]

/-- The `'apparel'` entry of `TAX_CATEGORIES`, used as the fallback
(`TAX_CATEGORIES[category] || TAX_CATEGORIES['apparel']`). -/
def apparelInfo : CategoryInfo := ⟨true, false⟩

/-- The value of `TAX_CATEGORIES[category] || TAX_CATEGORIES['apparel']`:
a table entry (an own key, or the apparel fallback for an absent key), or the
truthy inherited `Object.prototype` property, which the `||` keeps — only
`undefined` falls back to the apparel entry. -/
inductive CategoryInfoVal where
  | entry (ci : CategoryInfo)
  | builtin
deriving Repr, DecidableEq

/-- `TAX_CATEGORIES[category] || TAX_CATEGORIES['apparel']` with JS
prototype-chain semantics. -/
def jsCategoryLookup (category : String) : CategoryInfoVal :=
  match jsGet TAX_CATEGORIES category with
  | .own ci => .entry ci
  | .builtin _ => .builtin
  | .undefined => .entry apparelInfo

/-- `categoryInfo.taxable` as the truthiness the gate tests: an inherited
builtin has no `taxable` field, so the access is `undefined` (falsy). -/
def CategoryInfoVal.taxableTruthy : CategoryInfoVal → Bool
  | .entry ci => ci.taxable
  | .builtin => false

/-- One entry of a tax `breakdown`. -/
structure TaxLine where
  name : String
  rate : ℚ
  amount : ℚ
deriving Repr, DecidableEq

/-- The result object built by `TaxCalculator.calculate`. -/
structure TaxResult where
  subtotal : ℚ
  shipping : ℚ
  taxableAmount : ℚ
  taxRate : ℚ
  taxAmount : ℚ
  total : ℚ
  breakdown : List TaxLine
  jurisdiction : Option String
deriving Repr, DecidableEq

/-- The parameter object of `TaxCalculator.calculate`; `state`, `postalCode`
and `category` may be `undefined` (`category = 'apparel'` and `shipping = 0`
are the destructuring defaults, applied in `calculate`). -/
structure TaxInput where
  subtotal : ℚ
  country : String
  state : Option String
  postalCode : Option String
  category : Option String
  shipping : ℚ
deriving Repr, DecidableEq

/-- `TaxCalculator` instance state: the constructor's `nexusStates`. -/
structure TaxCalculator where
  nexusStates : List String
deriving Repr, DecidableEq

/-- The states of `statesTaxingShipping` in `calculateUSTax`. -/
def statesTaxingShipping : List String :=
  ["AR", "CT", "DC", "GA", "HI", "IN", "KS", "KY",
   "MI", "MN", "MS", "NE", "NJ", "NM", "NY", "NC", "ND", "OH", "PA", "SD",
   "TN", "TX", "VT", "WA", "WV", "WI"]

/-- `state?.toUpperCase()` on a possibly-undefined string. -/
def upperOpt (s : Option String) : Option String := s.map jsToUpper

/-- Rendering of a possibly-undefined string inside a JS template literal
(`undefined` renders as the string `"undefined"`). -/
def tmpl (s : Option String) : String := s.getD "undefined"

/-- `TaxCalculator.calculateUSTax`. -/
def TaxCalculator.calculateUSTax (tc : TaxCalculator) (result : TaxResult)
    (state : Option String) (shipping : ℚ) : TaxResult :=
  let stateCode := upperOpt state
  let inNexus := match stateCode with
    | some s => tc.nexusStates.contains s
    | none => false
  if tc.nexusStates.length > 0 && !inNexus then
    { result with jurisdiction := some (tmpl stateCode ++ " - No nexus") }
  else
    let stateTaxRate := jsOrQ (stateCode.bind (lookup US_STATE_TAX_RATES)) 0
    if stateTaxRate = 0 then
      { result with jurisdiction := some (tmpl stateCode ++ " - No state sales tax") }
    else
      let taxesShipping := match stateCode with
        | some s => statesTaxingShipping.contains s
        | none => false
      let taxableAmount := if taxesShipping then result.subtotal + shipping else result.subtotal
      let taxAmount := round2 (taxableAmount * stateTaxRate)
      { result with
        taxableAmount := taxableAmount
        taxRate := stateTaxRate
        taxAmount := taxAmount
        total := result.subtotal + shipping + taxAmount
        jurisdiction := some (tmpl stateCode)
        breakdown := result.breakdown ++
          [⟨tmpl stateCode ++ " State Sales Tax", stateTaxRate, taxAmount⟩] }

/-- The provincial rate used by `calculateCanadianTax`:
`CANADIAN_PROVINCIAL_TAX[provinceCode] || 0`. -/
def provincialRateOf (province : Option String) : ℚ :=
  jsOrQ ((upperOpt province).bind (lookup CANADIAN_PROVINCIAL_TAX)) 0

/-- `TaxCalculator.calculateCanadianTax`. -/
def TaxCalculator.calculateCanadianTax (_tc : TaxCalculator) (result : TaxResult)
    (province : Option String) (shipping : ℚ) : TaxResult :=
  let provinceCode := upperOpt province
  let gstRate : ℚ := 5/100
  let provincialRate := provincialRateOf province
  let taxableAmount := result.subtotal + shipping
  let gstAmount := round2 (taxableAmount * gstRate)
  let pstAmount := round2 (taxableAmount * provincialRate)
  let totalTax := gstAmount + pstAmount
  let base :=
    { result with
      taxableAmount := taxableAmount
      taxRate := gstRate + provincialRate
      taxAmount := totalTax
      total := result.subtotal + shipping + totalTax
      jurisdiction := some ("CA-" ++ tmpl provinceCode)
      breakdown := result.breakdown ++ [⟨"GST", gstRate, gstAmount⟩] }
  if provincialRate > 0 then
    let inHst := match provinceCode with
      | some s => (["NB", "NL", "NS", "ON", "PE"] : List String).contains s
      | none => false
    let taxName :=
      if inHst then "HST (provincial portion)"
      else if provinceCode = some "QC" then "QST"
      else "PST"
    { base with breakdown := base.breakdown ++ [⟨taxName, provincialRate, pstAmount⟩] }
  else
    base

/-- The value of `vatRate = INTERNATIONAL_VAT_RATES[country] || 0` with JS
prototype-chain semantics: a table rate (the `|| 0` replaces a zero rate by
itself and `undefined` by 0), or the truthy inherited `Object.prototype`
property, which survives the `||`. -/
inductive VatRateVal where
  | num (q : ℚ)
  | builtin
deriving Repr, DecidableEq

/-- `INTERNATIONAL_VAT_RATES[country] || 0`. -/
def vatRateOf (country : String) : VatRateVal :=
  match jsGet INTERNATIONAL_VAT_RATES country with
  | .own v => .num (jsOrQ (some v) 0)
  | .builtin _ => .builtin
  | .undefined => .num 0

/-- `calculateVAT` when `INTERNATIONAL_VAT_RATES[country]` is an inherited
`Object.prototype` property (country `"constructor"`, `"toString"`, …): the
function value survives `|| 0`, `vatRate === 0` is false, and the program
computes `vatAmount = Math.round(taxableAmount * vatRate * 100) / 100 = NaN`,
returning a result whose `taxRate` is the function and whose `taxAmount`,
`total` and breakdown amount are `NaN`.  Function values and `NaN` have no
image in ℚ, so this marker records only the ℚ-representable fields
(`taxableAmount`, `jurisdiction`, the breakdown line's name) and carries 0 in
place of the program's `NaN`/function values; no theorem in this file
constrains `calculate` at these country strings. -/
def nanVATResult (result : TaxResult) (country : String) (shipping : ℚ) : TaxResult :=
  { result with
    taxableAmount := result.subtotal + shipping
    jurisdiction := some country
    breakdown := result.breakdown ++ [⟨"VAT", 0, 0⟩] }

/-- `TaxCalculator.calculateVAT`. -/
def TaxCalculator.calculateVAT (_tc : TaxCalculator) (result : TaxResult)
    (country : String) (shipping : ℚ) : TaxResult :=
  match vatRateOf country with
  | .builtin => nanVATResult result country shipping
  | .num vatRate =>
    if vatRate = 0 then result
    else
      let taxableAmount := result.subtotal + shipping
      let vatAmount := round2 (taxableAmount * vatRate)
      { result with
        taxableAmount := taxableAmount
        taxRate := vatRate
        taxAmount := vatAmount
        total := result.subtotal + shipping + vatAmount
        jurisdiction := some country
        breakdown := result.breakdown ++ [⟨"VAT", vatRate, vatAmount⟩] }

/-- The `result` object `calculate` initialises before dispatching. -/
def initialTaxResult (p : TaxInput) : TaxResult :=
  { subtotal := p.subtotal
    shipping := p.shipping
    taxableAmount := p.subtotal
    taxRate := 0
    taxAmount := 0
    total := p.subtotal + p.shipping
    breakdown := []
    jurisdiction := none }

/-- `TaxCalculator.calculate`. -/
def TaxCalculator.calculate (tc : TaxCalculator) (p : TaxInput) : TaxResult :=
  let category := p.category.getD "apparel"
  let result := initialTaxResult p
  let categoryInfo := jsCategoryLookup category
  if !categoryInfo.taxableTruthy then result
  else if p.country = "US" then tc.calculateUSTax result p.state p.shipping
  else if p.country = "CA" then tc.calculateCanadianTax result p.state p.shipping
  else if (jsGet INTERNATIONAL_VAT_RATES p.country).isTruthyNum then
    tc.calculateVAT result p.country p.shipping
  else result

/-- `calculate` with the non-taxable-category early return removed, used to
state when that return is (un)reachable. -/
def TaxCalculator.calculateNoCategoryGate (tc : TaxCalculator) (p : TaxInput) :
    TaxResult :=
  let result := initialTaxResult p
  if p.country = "US" then tc.calculateUSTax result p.state p.shipping
  else if p.country = "CA" then tc.calculateCanadianTax result p.state p.shipping
  else if (jsGet INTERNATIONAL_VAT_RATES p.country).isTruthyNum then
    tc.calculateVAT result p.country p.shipping
  else result

/-- The exported singleton `taxCalculator = new TaxCalculator([])`
(the default nexus-state list in the source is empty). -/
def taxCalculator : TaxCalculator := ⟨[]⟩

/-! ## Shipping calculator service (`shipping-calculator.js`) -/

/-- `US_SHIPPING_ZONES`, in object-literal order (integer keys 1–6). -/
def US_SHIPPING_ZONES : List (Nat × List String) :=
  [(1, ["CA", "NV", "AZ"]),
   (2, ["OR", "WA", "ID", "MT", "WY", "UT", "CO", "NM"]),
   (3, ["ND", "SD", "NE", "KS", "OK", "TX", "MN", "IA", "MO", "AR", "LA"]),
   (4, ["WI", "IL", "MI", "IN", "OH", "KY", "TN", "MS", "AL"]),
   (5, ["ME", "NH", "VT", "MA", "RI", "CT", "NY", "NJ", "PA", "DE", "MD", "DC",
        "VA", "WV", "NC", "SC", "GA", "FL"]),
   (6, ["AK", "HI", "PR", "VI", "GU", "AS"])]

/-- `INTERNATIONAL_ZONES`, in object-literal order (zone E is the empty default). -/
def INTERNATIONAL_ZONES : List (String × List String) :=
  [("A", ["CA", "MX"]),
   ("B", ["GB", "DE", "FR", "NL", "BE", "AT", "CH", "IE", "DK", "SE", "NO", "FI"]),
   ("C", ["PL", "CZ", "HU", "RO", "BG", "SK", "SI", "HR", "EE", "LV", "LT"]),
   ("D", ["JP", "KR", "AU", "NZ", "SG", "HK", "TW"]),
   ("E", [])]

/-- `SHIPPING_RATES.US`: base rates by method and numeric zone. -/
def SHIPPING_RATES_US : List (String × List (Nat × ℚ)) :=
  [("standard", [(1, 599/100), (2, 699/100), (3, 799/100), (4, 899/100),
                 (5, 999/100), (6, 1499/100)]),
   ("express", [(1, 1299/100), (2, 1499/100), (3, 1699/100), (4, 1899/100),
                (5, 1999/100), (6, 2999/100)]),
   ("overnight", [(1, 2499/100), (2, 2999/100), (3, 3499/100), (4, 3999/100),
                  (5, 4499/100), (6, 5999/100)])]

/-- `SHIPPING_RATES.international`: base rates by method and letter zone. -/
def SHIPPING_RATES_INTL : List (String × List (String × ℚ)) :=
  [("standard", [("A", 1299/100), ("B", 1999/100), ("C", 2499/100),
                 ("D", 2999/100), ("E", 3499/100)]),
   ("express", [("A", 2499/100), ("B", 3999/100), ("C", 4999/100),
                ("D", 5999/100), ("E", 6999/100)])]

/-- Lookup in a numeric-keyed association-list model of a JS object literal. -/
def lookupN (tbl : List (Nat × α)) (key : Nat) : Option α :=
  (tbl.find? (fun e => e.1 = key)).map (·.2)

/-- `WEIGHT_SURCHARGES.US` (per additional pound, domestic). -/
def WEIGHT_SURCHARGE_US : ℚ := 1/2

/-- `WEIGHT_SURCHARGES.international` (per additional pound, international). -/
def WEIGHT_SURCHARGE_INTL : ℚ := 3/2

/-- An entry of `SHIPPING_METHODS` / `INTERNATIONAL_METHODS`. -/
structure MethodInfo where
  name : String
  description : String
  minDays : Nat
  maxDays : Nat
deriving Repr, DecidableEq

/-- `SHIPPING_METHODS` (domestic). -/
def SHIPPING_METHODS : List (String × MethodInfo) :=
  [("standard", ⟨"Standard Shipping", "Delivered in 5-7 business days", 5, 7⟩),
   ("express", ⟨"Express Shipping", "Delivered in 2-3 business days", 2, 3⟩),
   ("overnight", ⟨"Overnight Shipping", "Delivered next business day", 1, 1⟩)]

/-- `INTERNATIONAL_METHODS`. -/
def INTERNATIONAL_METHODS : List (String × MethodInfo) :=
  [("standard", ⟨"International Standard", "Delivered in 10-21 business days", 10, 21⟩),
   ("express", ⟨"International Express", "Delivered in 5-10 business days", 5, 10⟩)]

/-- `FREE_SHIPPING.US.threshold`. -/
def FREE_SHIPPING_US_threshold : ℚ := 75

/-- `FREE_SHIPPING.US.method`. -/
def FREE_SHIPPING_US_method : String := "standard"

/-- `FREE_SHIPPING.international.threshold`. -/
def FREE_SHIPPING_INTL_threshold : ℚ := 150

/-- `FREE_SHIPPING.international.method`. -/
def FREE_SHIPPING_INTL_method : String := "standard"

/-- `ShippingCalculator` instance state (constructor options;
`new ShippingCalculator()` gives `freeShippingEnabled = true, handlingFee = 0`). -/
structure ShippingCalculator where
  freeShippingEnabled : Bool
  handlingFee : ℚ
deriving Repr, DecidableEq

/-- The exported singleton `shippingCalculator = new ShippingCalculator()`. -/
def shippingCalculator : ShippingCalculator := ⟨true, 0⟩

/-- `ShippingCalculator.getUSZone`: first zone whose state list contains the
upper-cased state, else 5. `includes(undefined)` is false for a missing state. -/
def getUSZone (state : Option String) : Nat :=
  let stateCode := upperOpt state
  match US_SHIPPING_ZONES.find? (fun z =>
      match stateCode with
      | some s => z.2.contains s
      | none => false) with
  | some z => z.1
  | none => 5

/-- `ShippingCalculator.getInternationalZone`: first zone whose country list
contains the upper-cased country, else `'E'`. -/
def getInternationalZone (country : String) : String :=
  let countryCode := jsToUpper country
  match INTERNATIONAL_ZONES.find? (fun z => z.2.contains countryCode) with
  | some z => z.1
  | none => "E"

/-- `ShippingCalculator.getAvailableMethods`. -/
def getAvailableMethods (country : String) : List String :=
  if country = "US" then ["standard", "express", "overnight"]
  else ["standard", "express"]

/-- The result of `checkFreeShipping`.  When free shipping is disabled the
source returns the bare object `{ eligible: false }`, so every other field is
`undefined` (`none`). -/
structure FreeShippingResult where
  eligible : Bool
  threshold : Option ℚ
  method : Option String
  amountUntilFree : Option ℚ
  message : Option String
deriving Repr, DecidableEq

/-- `(x).toFixed(2)` for the message strings: two-decimal rendering. -/
def toFixed2 (x : ℚ) : String :=
  let sign := if x < 0 then "-" else ""
  let cents : ℤ := ⌊|x| * 100 + 1/2⌋
  let whole := cents / 100
  let frac := cents % 100
  sign ++ toString whole ++ "." ++ (if frac < 10 then "0" else "") ++ toString frac

/-- `ShippingCalculator.checkFreeShipping` (the `requestedMethod` parameter is
declared with default `'standard'` in the source and never read). -/
def ShippingCalculator.checkFreeShipping (sc : ShippingCalculator)
    (country : String) (subtotal : ℚ) (_requestedMethod : String := "standard") :
    FreeShippingResult :=
  if !sc.freeShippingEnabled then ⟨false, none, none, none, none⟩
  else
    let threshold := if country = "US" then FREE_SHIPPING_US_threshold
                     else FREE_SHIPPING_INTL_threshold
    let freeMethod := if country = "US" then FREE_SHIPPING_US_method
                      else FREE_SHIPPING_INTL_method
    let eligible := decide (subtotal ≥ threshold)
    { eligible := eligible
      threshold := some threshold
      method := some freeMethod
      amountUntilFree := some (if eligible then 0 else round2 (threshold - subtotal))
      message := some (if eligible then "You qualify for free shipping!"
        else "Add $" ++ toFixed2 (threshold - subtotal) ++ " more for free shipping") }

/-! Dates are modelled as milliseconds since the Unix epoch (a `Nat`), the
representation `Date` itself uses; `toISOString()` is injective on it, so two
dates are byte-identical in a response exactly when the timestamps agree.
`setDate(getDate() + 1)` adds one civil day and `getDay()` yields the weekday
(epoch day 0 was a Thursday, weekday 4). -/

/-- Milliseconds per civil day. -/
def MS_PER_DAY : Nat := 86400000

/-- `Date.getDay()`: 0 = Sunday … 6 = Saturday. -/
def dayOfWeek (ms : Nat) : Nat := (ms / MS_PER_DAY + 4) % 7

/-- Weekday test used by `addBusinessDays` (`dayOfWeek !== 0 && dayOfWeek !== 6`
negated). -/
def isWeekend (ms : Nat) : Bool := dayOfWeek ms = 0 || dayOfWeek ms = 6

/-- One pass of the `while` loop of `addBusinessDays` up to and including the
next counted (non-weekend) day: weekend runs are at most two days long. -/
def nextBusinessDay (ms : Nat) : Nat :=
  let m1 := ms + MS_PER_DAY
  if isWeekend m1 then
    let m2 := m1 + MS_PER_DAY
    if isWeekend m2 then m2 + MS_PER_DAY else m2
  else m1

/-- `addBusinessDays(date, days)` from `getDeliveryEstimate`. -/
def addBusinessDays (ms : Nat) : Nat → Nat
  | 0 => ms
  | n + 1 => addBusinessDays (nextBusinessDay ms) n

/-- The object returned by `getDeliveryEstimate` (`minDate`/`maxDate` are the
ISO timestamps; the locale-formatted display string is not modelled). -/
structure DeliveryEstimate where
  minDate : Nat
  maxDate : Nat
  minBusinessDays : Nat
  maxBusinessDays : Nat
deriving Repr, DecidableEq

/-- `ShippingCalculator.getDeliveryEstimate`, with the clock reading (`new
Date()`) passed explicitly. -/
def getDeliveryEstimate (now : Nat) (minD maxD : Nat) : DeliveryEstimate :=
  ⟨addBusinessDays now minD, addBusinessDays now maxD, minD, maxD⟩

/-- A shipping zone: numeric 1–6 for US, letter A–E international. -/
inductive Zone where
  | us (n : Nat)
  | intl (code : String)
deriving Repr, DecidableEq

/-- The object returned by `ShippingCalculator.calculate`. -/
structure ShippingQuote where
  method : String
  methodName : String
  description : Option String
  zone : Zone
  baseRate : ℚ
  weightSurcharge : ℚ
  handlingFee : ℚ
  total : ℚ
  freeShipping : FreeShippingResult
  deliveryEstimate : DeliveryEstimate
  availableMethods : List String
deriving Repr, DecidableEq

/-- `SHIPPING_RATES.US[method]?.[zone]`: `none` models `undefined`.  A
prototype-chain hit at the first level (method `"constructor"` etc.) is a
function with no numeric-zone property, so the optional-chained second access
is `undefined` as well — the `none` case covers it. -/
def usRateLookup (method : String) (zone : Nat) : Option ℚ :=
  (lookup SHIPPING_RATES_US method).bind (fun t => lookupN t zone)

/-- `SHIPPING_RATES.US.standard[zone]` (every computed zone is a key, so the
`undefined` case is modelled as 0). -/
def usStandardRate (zone : Nat) : ℚ :=
  (lookupN ((lookup SHIPPING_RATES_US "standard").getD []) zone).getD 0

/-- `SHIPPING_RATES.international[method]?.[zone]`: `none` models
`undefined`, including a prototype-chain hit at the first level (the builtin
has no letter-zone property, so the second access is `undefined`). -/
def intlRateLookup (method : String) (zone : String) : Option ℚ :=
  (lookup SHIPPING_RATES_INTL method).bind (fun t => lookup t zone)

/-- `SHIPPING_RATES.international.standard[zone]`. -/
def intlStandardRate (zone : String) : ℚ :=
  (lookup ((lookup SHIPPING_RATES_INTL "standard").getD []) zone).getD 0

/-- `ShippingCalculator.calculate`, with the clock reading passed explicitly
for the delivery estimate.  Parameter defaults in the source are
`weight = 1, subtotal = 0, method = 'standard'`; the routes pass all of them. -/
def ShippingCalculator.calculate (sc : ShippingCalculator) (now : Nat)
    (country : String) (state : Option String) (weight subtotal : ℚ)
    (method : String) : ShippingQuote :=
  let isUS := country = "US"
  let availableMethods := getAvailableMethods country
  let freeShipping := sc.checkFreeShipping country subtotal method
  let zone : Zone := if isUS then .us (getUSZone state)
                     else .intl (getInternationalZone country)
  let baseRate : ℚ :=
    match zone with
    | .us z => jsOrQ (usRateLookup method z) (usStandardRate z)
    | .intl z => jsOrQ (intlRateLookup method z) (intlStandardRate z)
  let extraWeight := max 0 (weight - 1)
  let weightSurcharge := extraWeight *
    (if isUS then WEIGHT_SURCHARGE_US else WEIGHT_SURCHARGE_INTL)
  let total0 := baseRate + weightSurcharge + sc.handlingFee
  let total1 := if freeShipping.eligible && (freeShipping.method == some method)
                then 0 else total0
  let methodInfo := if isUS then jsGet SHIPPING_METHODS method
                    else jsGet INTERNATIONAL_METHODS method
  -- `methodInfo?.estimatedDays || {min: 5, max: 10}`: an inherited builtin
  -- has no `estimatedDays`, so it falls back just like `undefined` does
  let estDays := match methodInfo with
    | .own mi => (mi.minDays, mi.maxDays)
    | _ => (5, 10)
  { method := method
    -- `methodInfo?.name || 'Standard Shipping'`: on an inherited builtin
    -- the access yields the built-in function's own `name`
    methodName := jsOrStr (match methodInfo with
      | .own mi => some mi.name
      | .builtin k => builtinDotName k
      | .undefined => none) "Standard Shipping"
    description := (match methodInfo with
      | .own mi => some mi.description
      | _ => none)
    zone := zone
    baseRate := baseRate
    weightSurcharge := weightSurcharge
    handlingFee := sc.handlingFee
    total := round2 total1
    freeShipping := freeShipping
    deliveryEstimate := getDeliveryEstimate now estDays.1 estDays.2
    availableMethods := availableMethods }

/-- `ShippingCalculator.getAllRates`: a quote per available method, sorted
ascending by total (`Array.prototype.sort` is stable). -/
def ShippingCalculator.getAllRates (sc : ShippingCalculator) (now : Nat)
    (country : String) (state : Option String) (weight subtotal : ℚ) :
    List ShippingQuote :=
  let rates := (getAvailableMethods country).map
    (fun m => sc.calculate now country state weight subtotal m)
  rates.mergeSort (fun a b => a.total ≤ b.total)

/-! ## Checkout routes (`routes/checkout.js`) and email utilities (`utils/email.js`)

Persistence is modelled by explicit state passing: a route is a function from
the database state (and the values the runtime supplies: the clock, the
generated UUID, the mail-transport outcome) to a response together with the
database state after the call.  `db.get('SELECT ... WHERE ...')` is a `find?`
over the corresponding table; `db.run('INSERT/UPDATE/DELETE ...')` rewrites it. -/

/-- A row of the `products` table (the columns the checkout routes read). -/
structure Product where
  id : Nat
  title : String
  price : ℚ
  weight : Option ℚ
  category : String
  isDigital : Bool
  inventoryCount : ℤ
  isActive : Bool
deriving Repr, DecidableEq

/-- A shipping/billing address (the fields the checkout routes read). -/
structure Address where
  country : String
  state : Option String
  postalCode : Option String
deriving Repr, DecidableEq

/-- An element of the `items` list stored in a checkout session
(built in `create-session`, read back in `complete`). -/
structure OrderItem where
  productId : Nat
  title : String
  price : ℚ
  quantity : Nat
  category : String
  isDigital : Bool
deriving Repr, DecidableEq

/-- A row of the `checkout_sessions` table (`expires_at` in epoch ms). -/
structure CheckoutSession where
  sessionId : String
  email : String
  items : List OrderItem
  shippingAddress : Address
  billingAddress : Address
  subtotal : ℚ
  shippingCost : ℚ
  shippingMethod : String
  taxAmount : ℚ
  total : ℚ
  expiresAt : Nat
deriving Repr, DecidableEq

/-- A row of the `orders` table (the columns `complete` inserts). -/
structure OrderRow where
  orderNumber : String
  customerEmail : String
  customerName : String
  customerPhone : Option String
  shippingAddress : Address
  billingAddress : Address
  items : List OrderItem
  subtotal : ℚ
  shipping : ℚ
  tax : ℚ
  total : ℚ
  shippingMethod : String
  paymentIntentId : Option String
  status : String
deriving Repr, DecidableEq

/-- The database state the checkout routes touch. -/
structure DBState where
  products : List Product
  sessions : List CheckoutSession
  orders : List OrderRow
deriving Repr, DecidableEq

/-- `SELECT * FROM products WHERE id = ? AND is_active = 1` (first row). -/
def findActiveProduct (db : DBState) (pid : Nat) : Option Product :=
  db.products.find? (fun p => p.id = pid && p.isActive)

/-- An HTTP error response: status code and `error` message. -/
structure HttpError where
  status : Nat
  error : String
deriving Repr, DecidableEq

/-- A validated line of the `/calculate` response's `items` array. -/
structure ValidatedItem where
  productId : Nat
  title : String
  price : ℚ
  quantity : Nat
  category : String
deriving Repr, DecidableEq

/-- A line of the request body's `items` array. -/
structure CalcItem where
  productId : Nat
  quantity : Nat
deriving Repr, DecidableEq

/-- The request body of `POST /api/checkout/calculate`. -/
structure CalcBody where
  items : List CalcItem
  country : String
  state : Option String
  postalCode : Option String
  shippingMethod : Option String
deriving Repr, DecidableEq

/-- The response body of `POST /api/checkout/calculate` (`currency` is the
constant `"USD"`; the nested `shipping`/`tax` objects are flattened). -/
structure CalcResponse where
  items : List ValidatedItem
  subtotal : ℚ
  shippingMethod : String
  shippingMethodName : String
  shippingCost : ℚ
  deliveryEstimate : DeliveryEstimate
  freeShipping : FreeShippingResult
  taxRate : ℚ
  taxAmount : ℚ
  taxBreakdown : List TaxLine
  taxJurisdiction : Option String
  total : ℚ
  currency : String
deriving Repr, DecidableEq

/-- The item-resolution loop of `/calculate`: accumulates
`subtotal += product.price * quantity` and
`totalWeight += (product.weight || 0.5) * quantity`, aborting with a 400 on the
first unresolvable product. -/
def resolveCalcItems (db : DBState) :
    List CalcItem → Except HttpError (ℚ × ℚ × List ValidatedItem)
  | [] => .ok (0, 0, [])
  | it :: rest =>
    match findActiveProduct db it.productId with
    | none => .error ⟨400, "Product " ++ toString it.productId ++ " not found"⟩
    | some p => do
      let (s, w, vs) ← resolveCalcItems db rest
      .ok (p.price * (it.quantity : ℚ) + s,
           jsOrQ p.weight (1/2) * (it.quantity : ℚ) + w,
           ⟨p.id, p.title, p.price, it.quantity, p.category⟩ :: vs)

/-- `POST /api/checkout/calculate`: the quote route.  It performs only reads,
so the returned state is the input state on every path. -/
def calculateRoute (db : DBState) (now : Nat) (body : CalcBody) :
    Except HttpError CalcResponse × DBState :=
  let shippingMethod := body.shippingMethod.getD "standard"
  match resolveCalcItems db body.items with
  | .error e => (.error e, db)
  | .ok (subtotal, totalWeight, validatedItems) =>
    let shipping := shippingCalculator.calculate now body.country body.state
      totalWeight subtotal shippingMethod
    let tax := taxCalculator.calculate
      ⟨subtotal, body.country, body.state, body.postalCode, none, shipping.total⟩
    let total := subtotal + shipping.total + tax.taxAmount
    (.ok
      { items := validatedItems
        subtotal := round2 subtotal
        shippingMethod := shipping.method
        shippingMethodName := shipping.methodName
        shippingCost := shipping.total
        deliveryEstimate := shipping.deliveryEstimate
        freeShipping := shipping.freeShipping
        taxRate := tax.taxRate
        taxAmount := tax.taxAmount
        taxBreakdown := tax.breakdown
        taxJurisdiction := tax.jurisdiction
        total := round2 total
        currency := "USD" }, db)

/-- What the mail transport does with a message: deliver it (yielding a
message id) or fail (yielding an error message).  This is the only
nondeterminism in the notification path, so it is passed in explicitly. -/
abbrev MailOutcome := Except String String

/-- The value `sendEmail` resolves with. -/
structure SendResult where
  success : Bool
  messageId : Option String
  error : Option String
deriving Repr, DecidableEq

/-- `sendEmail` (`utils/email.js`): `transporter.sendMail` is awaited inside a
`try`/`catch`, so a delivery failure is logged and turned into
`{ success: false, error }` — it is never thrown to the caller. -/
def sendEmail (outcome : MailOutcome) : SendResult :=
  match outcome with
  | .ok messageId => ⟨true, some messageId, none⟩
  | .error e => ⟨false, none, some e⟩

/-- The order-summary argument of `sendOrderConfirmation` (the `items` JSON
blob is modelled in parsed form; the route parses the same string successfully
just before the call). -/
structure OrderSummary where
  orderNumber : String
  customerEmail : String
  customerName : String
  items : List OrderItem
  subtotal : ℚ
  shipping : ℚ
  tax : ℚ
  total : ℚ
deriving Repr, DecidableEq

/-- The email text built by `sendOrderConfirmation`. -/
def orderConfirmationText (o : OrderSummary) : String :=
  let itemsList := String.intercalate "\n" (o.items.map (fun i =>
    "- " ++ i.title ++ " x" ++ toString i.quantity ++ ": $" ++
      toFixed2 (i.price * (i.quantity : ℚ))))
  "\nThank you for your order!\n\nOrder Number: " ++ o.orderNumber ++
    "\n\nItems:\n" ++ itemsList ++
    "\n\nSubtotal: $" ++ toFixed2 o.subtotal ++
    "\nShipping: $" ++ toFixed2 o.shipping ++
    "\nTotal: $" ++ toFixed2 o.total ++
    "\n\nWe'll notify you when your order ships.\n\n- WYATT XXX COLE\n  "

/-- `sendOrderConfirmation` (`utils/email.js`): builds subject and body and
resolves with `sendEmail`'s result. -/
def sendOrderConfirmation (o : OrderSummary) (outcome : MailOutcome) :
    SendResult :=
  let _subject := "Order Confirmation #" ++ o.orderNumber
  let _text := orderConfirmationText o
  sendEmail outcome

/-- `uuid.substring(0, 8)` on an ASCII uuid string, modelled on the character
list. -/
def jsSubstring8 (s : String) : String := ⟨s.data.take 8⟩

/-- The request body of `POST /api/checkout/complete`. -/
structure CompleteBody where
  sessionId : String
  paymentIntentId : Option String
  customerName : String
  phone : Option String
deriving Repr, DecidableEq

/-- The nested `order` object of the `/complete` success response. -/
structure CompleteOrderInfo where
  orderNumber : String
  email : String
  total : ℚ
  items : List OrderItem
deriving Repr, DecidableEq

/-- The success response of `POST /api/checkout/complete`. -/
structure CompleteResponse where
  success : Bool
  orderNumber : String
  message : String
  order : CompleteOrderInfo
deriving Repr, DecidableEq

/-- The per-item inventory update loop of `/complete`:
`UPDATE products SET inventory_count = inventory_count - ? WHERE id = ?`
for every non-digital item (no floor at zero, no `is_active` filter). -/
def decrementStock (products : List Product) (items : List OrderItem) :
    List Product :=
  items.foldl (fun ps it =>
    if it.isDigital then ps
    else ps.map (fun p =>
      if p.id = it.productId then
        { p with inventoryCount := p.inventoryCount - (it.quantity : ℤ) }
      else p)) products

/-- `POST /api/checkout/complete`.  The runtime-supplied values are explicit:
`uuid` is the `uuidv4()` used for the order number and `outcome` is the mail
transport's behaviour.  The express-validator chain runs first:
`body('sessionId').notEmpty()` and `body('customerName').notEmpty()`
(`paymentIntentId` and `phone` are optional); a missing or empty required
field is answered with 400 (`{errors: errors.array()}`, modelled here by a
fixed message — only the status and the absence of effects matter) and the
handler body never runs.  A missing string field is modelled as `""`.
The session lookup is `SELECT * FROM checkout_sessions WHERE session_id = ?`
— the `WHERE` clause names only `session_id`; `expires_at` appears in no
query and in no comparison, and the route reads no clock. -/
def completeRoute (db : DBState) (uuid : String) (outcome : MailOutcome)
    (body : CompleteBody) : Except HttpError CompleteResponse × DBState :=
  if body.sessionId = "" ∨ body.customerName = "" then
    (.error ⟨400, "Validation failed"⟩, db)
  else
  match db.sessions.find? (fun s => s.sessionId = body.sessionId) with
  | none => (.error ⟨404, "Checkout session not found or expired"⟩, db)
  | some session =>
    let orderNumber := "WXC-" ++ jsToUpper (jsSubstring8 uuid)
    let order : OrderRow :=
      { orderNumber := orderNumber
        customerEmail := session.email
        customerName := body.customerName
        customerPhone := body.phone
        shippingAddress := session.shippingAddress
        billingAddress := session.billingAddress
        items := session.items
        subtotal := session.subtotal
        shipping := session.shippingCost
        tax := session.taxAmount
        total := session.total
        shippingMethod := session.shippingMethod
        paymentIntentId := body.paymentIntentId
        status := "paid" }
    let db1 : DBState := { db with orders := db.orders ++ [order] }
    let db2 : DBState := { db1 with products := decrementStock db1.products session.items }
    let db3 : DBState :=
      { db2 with sessions := db2.sessions.filter (fun s => s.sessionId ≠ body.sessionId) }
    let _emailResult := sendOrderConfirmation
      ⟨orderNumber, session.email, body.customerName, session.items,
       session.subtotal, session.shippingCost, session.taxAmount, session.total⟩
      outcome
    (.ok
      { success := true
        orderNumber := orderNumber
        message := "Order placed successfully!"
        order := ⟨orderNumber, session.email, session.total, session.items⟩ }, db3)

/-! ## Concrete states used by the evaluation theorems -/

deriving instance DecidableEq for Except

/-- A one-product catalog: the spec's end-to-end example product
(price 35, weight 0.5 lb, physical, 10 in stock, active). -/
def teeProduct : Product := ⟨1, "Tee", 35, some (1/2), "apparel", false, 10, true⟩

/-- Shipping/billing address: California, US. -/
def caAddress : Address := ⟨"US", some "CA", some "90001"⟩

/-- Two units of the tee, as stored in a checkout session's `items` blob. -/
def teeItems : List OrderItem := [⟨1, "Tee", 35, 2, "apparel", false⟩]

/-- A database holding one checkout session whose `expires_at` (epoch ms 1000)
lies in the past of any realistic call time: the totals are the ones the
create-session route computes for two tees shipped standard to US/CA. -/
def expiredSessionDb : DBState :=
  { products := [teeProduct]
    sessions := [⟨"cs_test", "jane@example.com", teeItems, caAddress, caAddress,
                  70, 599/100, "standard", 508/100, 8107/100, 1000⟩]
    orders := [] }

/-- The completion request for that session. -/
def completeTestBody : CompleteBody := ⟨"cs_test", none, "Jane Doe", none⟩

/-- A catalog state for the quote-route theorems. -/
def quoteDb : DBState := ⟨[teeProduct], [], []⟩

/-- A quote request: one tee to US/CA, standard shipping. -/
def quoteBody : CalcBody := ⟨[⟨1, 1⟩], "US", some "CA", none, none⟩

/-! ## Helper lemmas -/

theorem round2_zero : round2 0 = 0 := by with_unfolding_all decide

theorem round2_nonneg {x : ℚ} (hx : 0 ≤ x) : 0 ≤ round2 x := by
  unfold round2 jsRound
  have h0 : (0 : ℤ) ≤ ⌊x * 100 + 1/2⌋ := by
    rw [Int.le_floor]
    push_cast
    nlinarith
  have : (0 : ℚ) ≤ (⌊x * 100 + 1/2⌋ : ℚ) := by exact_mod_cast h0
  linarith

theorem lookup_mem {α : Type _} {tbl : List (String × α)} {k : String} {v : α}
    (h : lookup tbl k = some v) : ∃ e ∈ tbl, e.2 = v := by
  unfold lookup at h
  cases hf : tbl.find? (fun e => e.1 = k) with
  | none => rw [hf] at h; cases h
  | some e =>
    rw [hf] at h
    refine ⟨e, List.mem_of_find?_eq_some hf, ?_⟩
    simpa using h

theorem lookupN_mem {α : Type _} {tbl : List (Nat × α)} {k : Nat} {v : α}
    (h : lookupN tbl k = some v) : ∃ e ∈ tbl, e.2 = v := by
  unfold lookupN at h
  cases hf : tbl.find? (fun e => e.1 = k) with
  | none => rw [hf] at h; cases h
  | some e =>
    rw [hf] at h
    refine ⟨e, List.mem_of_find?_eq_some hf, ?_⟩
    simpa using h

theorem jsOrQ_some (v d : ℚ) : jsOrQ (some v) d = if v = 0 then d else v := rfl

theorem jsOrQ_none (d : ℚ) : jsOrQ none d = d := rfl

/-- Every entry of `TAX_CATEGORIES` (and the fallback) is taxable. -/
theorem tax_category_always_taxable (c : String) :
    ((lookup TAX_CATEGORIES c).getD apparelInfo).taxable = true := by
  cases h : lookup TAX_CATEGORIES c with
  | none => rfl
  | some ci =>
    obtain ⟨e, he, hev⟩ := lookup_mem h
    subst hev
    fin_cases he <;> rfl

/-- No inherited `Object.prototype` property name is a category-table key. -/
theorem proto_not_category :
    ∀ k ∈ objectProtoKeys, lookup TAX_CATEGORIES k = none := by
  decide

/-- For a category that is not an inherited property name, the gate's
truthiness test passes (an own entry is taxable; an absent key falls back to
the taxable apparel entry). -/
theorem categoryTaxable_of_not_proto (c : String) (h : c ∉ objectProtoKeys) :
    (jsCategoryLookup c).taxableTruthy = true := by
  unfold jsCategoryLookup jsGet
  cases hl : lookup TAX_CATEGORIES c with
  | some ci =>
    obtain ⟨e, he, hev⟩ := lookup_mem hl
    subst hev
    fin_cases he <;> rfl
  | none => simp [h, CategoryInfoVal.taxableTruthy, apparelInfo]

/-- For a category that is an inherited `Object.prototype` property name, the
`||` keeps the truthy inherited value, its `taxable` is `undefined`, and the
gate's truthiness test fails. -/
theorem categoryGate_fires_of_proto (c : String) (h : c ∈ objectProtoKeys) :
    (jsCategoryLookup c).taxableTruthy = false := by
  unfold jsCategoryLookup jsGet
  rw [proto_not_category c h]
  simp [h, CategoryInfoVal.taxableTruthy]

/-- Every provincial rate the Canadian branch can use is nonnegative. -/
theorem provincialRate_nonneg (s : Option String) : 0 ≤ provincialRateOf s := by
  unfold provincialRateOf
  cases h : (upperOpt s).bind (lookup CANADIAN_PROVINCIAL_TAX) with
  | none => simp [jsOrQ]
  | some v =>
    obtain ⟨a, -, hl⟩ := Option.bind_eq_some.mp h
    obtain ⟨e, he, hev⟩ := lookup_mem hl
    subst hev
    simp only [jsOrQ]
    split
    · norm_num
    · fin_cases he <;> norm_num

/-! ## Claim theorems -/

/-- C8: during order completion, the mail-delivery outcome (the only failure
the notification step can produce — `sendEmail` catches it and returns
`{success: false}` instead of throwing) never changes the completion response
or the persisted state: the call reports the same result, and the order row
and stock decrements are identical, whatever the notification outcome; and
the call succeeds exactly when the request passes validation (non-empty
`sessionId` and `customerName`) and the session lookup succeeds. -/
theorem c8_notification_failure_never_propagates (db : DBState) (uuid : String)
    (o o' : MailOutcome) (body : CompleteBody) :
    completeRoute db uuid o body = completeRoute db uuid o' body ∧
    (completeRoute db uuid o body).1.toOption.isSome =
      (decide (body.sessionId ≠ "") && decide (body.customerName ≠ "") &&
        (db.sessions.find? (fun s => s.sessionId = body.sessionId)).isSome) := by
  unfold completeRoute
  by_cases hv : body.sessionId = "" ∨ body.customerName = ""
  · rw [if_pos hv]
    refine ⟨rfl, ?_⟩
    rcases hv with h | h <;> simp [Except.toOption, h]
  · rw [if_neg hv]
    push_neg at hv
    cases db.sessions.find? (fun s => s.sessionId = body.sessionId) <;>
      simp [Except.toOption, hv.1, hv.2]

set_option maxRecDepth 4000 in
/-- C1 (code bug): `expiredSessionDb` stores exactly one checkout session and
its `expires_at` is epoch ms 1000 — in the past of any realistic completion
time.  The claim (and the spec) says completing it must fail with
`SessionNotFound` (404) and create no order; the route instead succeeds:
it never reads a clock and its session query filters on `session_id` only, so
the expired session completes, the order row is persisted with status `paid`,
the stock is decremented (10 → 8) and the session is deleted.  (The route's
own 404 message, `'Checkout session not found or expired'`, documents the
intended expiry check that is missing.) -/
theorem c1_expired_session_completes_anyway :
    (expiredSessionDb.sessions.map (fun s => s.expiresAt)) = [1000] ∧
    (completeRoute expiredSessionDb "abcd1234-ef00-0000-0000-000000000000"
        (Except.ok "mid") completeTestBody).1 =
      Except.ok
        { success := true
          orderNumber := "WXC-ABCD1234"
          message := "Order placed successfully!"
          order := ⟨"WXC-ABCD1234", "jane@example.com", 8107/100, teeItems⟩ } ∧
    ((completeRoute expiredSessionDb "abcd1234-ef00-0000-0000-000000000000"
        (Except.ok "mid") completeTestBody).2.orders.map
          (fun o => (o.orderNumber, o.status))) = [("WXC-ABCD1234", "paid")] ∧
    ((completeRoute expiredSessionDb "abcd1234-ef00-0000-0000-000000000000"
        (Except.ok "mid") completeTestBody).2.products.map
          (fun p => p.inventoryCount)) = [8] ∧
    (completeRoute expiredSessionDb "abcd1234-ef00-0000-0000-000000000000"
        (Except.ok "mid") completeTestBody).2.sessions = [] := by
  refine ⟨by with_unfolding_all decide, by with_unfolding_all rfl,
    by with_unfolding_all decide, by with_unfolding_all decide,
    by with_unfolding_all decide⟩

/-- C7 (counterexample): two calls to the quote route with the identical body
and unchanged catalog, made at clock readings 1 ms apart, return different
response bodies: the `deliveryEstimate` timestamps (serialized with
`toISOString()`, which is injective down to the millisecond) differ. -/
theorem c7_counterexample :
    (calculateRoute quoteDb 0 quoteBody).1 ≠ (calculateRoute quoteDb 1 quoteBody).1 := by
  intro h
  have h2 := congrArg (fun r => r.toOption.map (fun x => x.deliveryEstimate)) h
  exact absurd h2 (by with_unfolding_all decide)

/-- C7 (amended): the quote route performs no writes — the database state
after a call is the state before it — and therefore re-quoting is idempotent
given the same clock reading: running the route a second time, on the state
the first call left behind, with the same body and the same clock, returns
exactly the first response and again leaves the state unchanged.  (Byte
identity across different clock readings fails; see the counterexample.) -/
theorem c7_quote_idempotent_same_clock (db : DBState) (now : Nat) (body : CalcBody) :
    (calculateRoute db now body).2 = db ∧
    (calculateRoute ((calculateRoute db now body).2) now body).1 =
      (calculateRoute db now body).1 := by
  have hsnd : (calculateRoute db now body).2 = db := by
    unfold calculateRoute
    cases resolveCalcItems db body.items <;> rfl
  exact ⟨hsnd, by rw [hsnd]⟩

/-- The gate-free variant agrees with `calculate` (every category is taxable). -/
theorem calculate_eq_noGate (tc : TaxCalculator) (p : TaxInput)
    (hcat : p.category.getD "apparel" ∉ objectProtoKeys) :
    tc.calculate p = tc.calculateNoCategoryGate p := by
  simp [TaxCalculator.calculate, TaxCalculator.calculateNoCategoryGate,
    categoryTaxable_of_not_proto _ hcat]

/-- C10 (counterexample): the category string `"constructor"` is absent from
`TAX_CATEGORIES` but, being an inherited `Object.prototype` property,
`TAX_CATEGORIES['constructor']` is truthy — so the `||` never falls back to
apparel, `categoryInfo.taxable` is `undefined`, and the zero-tax early
return IS taken (reachable via `POST /calculate-tax`): for CA/BC, subtotal
100, the program returns zero tax and an empty breakdown where the gate-free
computation returns 12. -/
theorem c10_counterexample :
    (taxCalculator.calculate ⟨100, "CA", some "BC", none, some "constructor", 0⟩).taxAmount
      = 0 ∧
    (taxCalculator.calculate ⟨100, "CA", some "BC", none, some "constructor", 0⟩).breakdown
      = [] ∧
    (taxCalculator.calculateNoCategoryGate
        ⟨100, "CA", some "BC", none, some "constructor", 0⟩).taxAmount = 12 ∧
    taxCalculator.calculate ⟨100, "CA", some "BC", none, some "constructor", 0⟩ ≠
      taxCalculator.calculateNoCategoryGate
        ⟨100, "CA", some "BC", none, some "constructor", 0⟩ := by
  refine ⟨?_, ?_, ?_, ?_⟩ <;> with_unfolding_all decide

/-- C10 (amended): a category string that is neither a table key nor an
inherited `Object.prototype` property name is treated as the default
`'apparel'` (also when the category is absent), and every table entry (and
the fallback) is taxable — so the zero-tax early return fires exactly when
the category is one of the twelve inherited property names, and is
unreachable otherwise. -/
theorem c10_category_gate_amended (tc : TaxCalculator) (p : TaxInput) :
    ((lookup TAX_CATEGORIES (p.category.getD "apparel")).getD apparelInfo).taxable
      = true ∧
    tc.calculate p =
      (if p.category.getD "apparel" ∈ objectProtoKeys
       then initialTaxResult p
       else tc.calculateNoCategoryGate p) := by
  refine ⟨tax_category_always_taxable _, ?_⟩
  by_cases h : p.category.getD "apparel" ∈ objectProtoKeys
  · rw [if_pos h]
    simp [TaxCalculator.calculate, categoryGate_fires_of_proto _ h]
  · rw [if_neg h]
    exact calculate_eq_noGate tc p h

/-- In the US branch the breakdown sums to `taxAmount`, which is the rounded
product of the reported taxable amount and rate. -/
theorem usTax_invariant (tc : TaxCalculator) (p : TaxInput) :
    ((tc.calculateUSTax (initialTaxResult p) p.state p.shipping).breakdown.map
        TaxLine.amount).sum =
      (tc.calculateUSTax (initialTaxResult p) p.state p.shipping).taxAmount ∧
    (tc.calculateUSTax (initialTaxResult p) p.state p.shipping).taxAmount =
      round2 ((tc.calculateUSTax (initialTaxResult p) p.state p.shipping).taxableAmount *
        (tc.calculateUSTax (initialTaxResult p) p.state p.shipping).taxRate) := by
  simp only [TaxCalculator.calculateUSTax, initialTaxResult]
  split
  · simp [round2_zero]
  · split
    · simp [round2_zero]
    · simp

/-- In the Canadian branch the breakdown sums to `taxAmount`, which is the sum
of the separately rounded GST and provincial components on `subtotal +
shipping`. -/
theorem caTax_invariant (tc : TaxCalculator) (p : TaxInput) :
    ((tc.calculateCanadianTax (initialTaxResult p) p.state p.shipping).breakdown.map
        TaxLine.amount).sum =
      (tc.calculateCanadianTax (initialTaxResult p) p.state p.shipping).taxAmount ∧
    (tc.calculateCanadianTax (initialTaxResult p) p.state p.shipping).taxAmount =
      round2 ((p.subtotal + p.shipping) * (5/100)) +
        round2 ((p.subtotal + p.shipping) * provincialRateOf p.state) ∧
    (tc.calculateCanadianTax (initialTaxResult p) p.state p.shipping).taxableAmount =
      p.subtotal + p.shipping := by
  simp only [TaxCalculator.calculateCanadianTax, initialTaxResult]
  split
  · simp
  · rename_i hnot
    have h0 : provincialRateOf p.state = 0 :=
      le_antisymm (not_lt.mp hnot) (provincialRate_nonneg p.state)
    simp [h0, mul_zero, round2_zero]

/-- In the VAT branch the breakdown sums to `taxAmount`, which is the rounded
product of the reported taxable amount and rate. -/
theorem vatTax_invariant (tc : TaxCalculator) (p : TaxInput) :
    ((tc.calculateVAT (initialTaxResult p) p.country p.shipping).breakdown.map
        TaxLine.amount).sum =
      (tc.calculateVAT (initialTaxResult p) p.country p.shipping).taxAmount ∧
    (tc.calculateVAT (initialTaxResult p) p.country p.shipping).taxAmount =
      round2 ((tc.calculateVAT (initialTaxResult p) p.country p.shipping).taxableAmount *
        (tc.calculateVAT (initialTaxResult p) p.country p.shipping).taxRate) := by
  unfold TaxCalculator.calculateVAT
  split
  · simp [nanVATResult, initialTaxResult, round2_zero]
  · split
    · simp [initialTaxResult, round2_zero]
    · simp [initialTaxResult]

/-- C2 (counterexample): for Canada/BC with subtotal 10.10 and no shipping the
two tax components round up separately (GST 0.505 → 0.51, PST 0.707 → 0.71),
so `taxAmount` is 1.22 while rounding the aggregate-rate product once gives
`round2(10.10 × 0.12) = 1.21`: the claimed identity
`taxAmount = round(taxableAmount × taxRate, 2)` fails. -/
theorem c2_counterexample :
    (taxCalculator.calculate ⟨101/10, "CA", some "BC", none, none, 0⟩).taxAmount =
        61/50 ∧
    round2 ((taxCalculator.calculate ⟨101/10, "CA", some "BC", none, none, 0⟩).taxableAmount *
        (taxCalculator.calculate ⟨101/10, "CA", some "BC", none, none, 0⟩).taxRate) =
      121/100 ∧
    (taxCalculator.calculate ⟨101/10, "CA", some "BC", none, none, 0⟩).taxAmount ≠
      round2 ((taxCalculator.calculate ⟨101/10, "CA", some "BC", none, none, 0⟩).taxableAmount *
        (taxCalculator.calculate ⟨101/10, "CA", some "BC", none, none, 0⟩).taxRate) := by
  refine ⟨?_, ?_, ?_⟩ <;> with_unfolding_all decide

/-- C2 (amended): for every input whose (defaulted) category and whose
country are not inherited `Object.prototype` property names, the breakdown
entries sum exactly to `taxAmount`, and `taxAmount = round(taxableAmount ×
taxRate, 2)` holds in every branch except Canada, where the GST and
provincial components are rounded separately: `taxAmount =
round(taxableAmount × 0.05, 2) + round(taxableAmount × provincialRate, 2)`
(which can differ from the single rounding by a cent).  The two hypotheses
keep the statement inside the faithfully-modelled fragment: a prototype-name
category takes the zero-tax early return, and a prototype-name country makes
the program compute `NaN` amounts in the VAT branch (neither invariant is
claimed there). -/
theorem c2_tax_invariant_amended (tc : TaxCalculator) (p : TaxInput)
    (hcat : p.category.getD "apparel" ∉ objectProtoKeys)
    (_hcountry : p.country ∉ objectProtoKeys) :
    ((tc.calculate p).breakdown.map TaxLine.amount).sum = (tc.calculate p).taxAmount ∧
    (tc.calculate p).taxAmount =
      (if p.country = "CA"
       then round2 ((tc.calculate p).taxableAmount * (5/100)) +
         round2 ((tc.calculate p).taxableAmount * provincialRateOf p.state)
       else round2 ((tc.calculate p).taxableAmount * (tc.calculate p).taxRate)) := by
  rw [calculate_eq_noGate tc p hcat]
  simp only [TaxCalculator.calculateNoCategoryGate]
  by_cases h1 : p.country = "US"
  · have hne : p.country ≠ "CA" := by rw [h1]; decide
    rw [if_pos h1, if_neg hne]
    exact usTax_invariant tc p
  · by_cases h2 : p.country = "CA"
    · rw [if_neg h1, if_pos h2]
      have hca := caTax_invariant tc p
      exact ⟨hca.1, by rw [if_pos h2, hca.2.2]; exact hca.2.1⟩
    · rw [if_neg h1, if_neg h2]
      split
      · exact vatTax_invariant tc p
      · simp [initialTaxResult, round2_zero]

/-- Witness for C2's amended theorem: Canada/BC, subtotal 10, no shipping,
default category. -/
theorem c2_witness :
    ((taxCalculator.calculate ⟨10, "CA", some "BC", none, none, 0⟩).breakdown.map
        TaxLine.amount).sum =
      (taxCalculator.calculate ⟨10, "CA", some "BC", none, none, 0⟩).taxAmount ∧
    (taxCalculator.calculate ⟨10, "CA", some "BC", none, none, 0⟩).taxAmount =
      (if ("CA" : String) = "CA"
       then round2 ((taxCalculator.calculate ⟨10, "CA", some "BC", none, none, 0⟩).taxableAmount
           * (5/100)) +
         round2 ((taxCalculator.calculate ⟨10, "CA", some "BC", none, none, 0⟩).taxableAmount
           * provincialRateOf (some "BC"))
       else round2 ((taxCalculator.calculate ⟨10, "CA", some "BC", none, none, 0⟩).taxableAmount
           * (taxCalculator.calculate ⟨10, "CA", some "BC", none, none, 0⟩).taxRate)) :=
  c2_tax_invariant_amended taxCalculator ⟨10, "CA", some "BC", none, none, 0⟩
    (by decide) (by decide)

/-- Every base rate in the domestic rate table is nonnegative. -/
theorem shipping_rates_us_nonneg :
    ∀ m ∈ SHIPPING_RATES_US, ∀ e ∈ m.2, 0 ≤ e.2 := by
  with_unfolding_all decide

/-- Every base rate in the international rate table is nonnegative. -/
theorem shipping_rates_intl_nonneg :
    ∀ m ∈ SHIPPING_RATES_INTL, ∀ e ∈ m.2, 0 ≤ e.2 := by
  with_unfolding_all decide

theorem jsOrQ_nonneg {x : Option ℚ} {d : ℚ} (hd : 0 ≤ d)
    (hx : ∀ v, x = some v → 0 ≤ v) : 0 ≤ jsOrQ x d := by
  cases x with
  | none => exact hd
  | some v =>
    simp only [jsOrQ]
    split
    · exact hd
    · exact hx v rfl

theorem usStandardRate_nonneg (z : Nat) : 0 ≤ usStandardRate z := by
  unfold usStandardRate
  cases hs : lookup SHIPPING_RATES_US "standard" with
  | none => simp [lookupN]
  | some t =>
    simp only [Option.getD_some]
    cases h2 : lookupN t z with
    | none => simp
    | some v =>
      obtain ⟨e, he, hev⟩ := lookup_mem hs
      obtain ⟨e2, he2, hev2⟩ := lookupN_mem h2
      simp only [Option.getD_some]
      rw [← hev2]
      exact shipping_rates_us_nonneg e he e2 (by rwa [hev])

theorem intlStandardRate_nonneg (z : String) : 0 ≤ intlStandardRate z := by
  unfold intlStandardRate
  cases hs : lookup SHIPPING_RATES_INTL "standard" with
  | none => simp [lookup]
  | some t =>
    simp only [Option.getD_some]
    cases h2 : lookup t z with
    | none => simp
    | some v =>
      obtain ⟨e, he, hev⟩ := lookup_mem hs
      obtain ⟨e2, he2, hev2⟩ := lookup_mem h2
      simp only [Option.getD_some]
      rw [← hev2]
      exact shipping_rates_intl_nonneg e he e2 (by rwa [hev])

/-- The base rate `calculate` picks for a US destination is nonnegative. -/
theorem usBaseRate_nonneg (method : String) (z : Nat) :
    0 ≤ jsOrQ (usRateLookup method z) (usStandardRate z) := by
  refine jsOrQ_nonneg (usStandardRate_nonneg z) (fun v h => ?_)
  unfold usRateLookup at h
  obtain ⟨t, ht, h2⟩ := Option.bind_eq_some.mp h
  obtain ⟨e, he, hev⟩ := lookup_mem ht
  obtain ⟨e2, he2, hev2⟩ := lookupN_mem h2
  rw [← hev2]
  exact shipping_rates_us_nonneg e he e2 (by rwa [hev])

/-- The base rate `calculate` picks for an international destination is
nonnegative. -/
theorem intlBaseRate_nonneg (method : String) (z : String) :
    0 ≤ jsOrQ (intlRateLookup method z) (intlStandardRate z) := by
  refine jsOrQ_nonneg (intlStandardRate_nonneg z) (fun v h => ?_)
  unfold intlRateLookup at h
  obtain ⟨t, ht, h2⟩ := Option.bind_eq_some.mp h
  obtain ⟨e, he, hev⟩ := lookup_mem ht
  obtain ⟨e2, he2, hev2⟩ := lookup_mem h2
  rw [← hev2]
  exact shipping_rates_intl_nonneg e he e2 (by rwa [hev])

/-- C5 (counterexample): a domestic standard quote for weight 1.25 lb, zone 1,
default configuration (handling fee 0, free shipping not reached): the code
returns `round2(5.99 + 0.125 + 0) = 6.12`, but the claim's formula
`max(0, baseRate + weightSurcharge + handlingFee)` gives the unrounded 6.115
— the total is rounded to 2 decimals, so the claimed identity fails. -/
theorem c5_counterexample :
    ((shippingCalculator.calculate 0 "US" (some "CA") (5/4) 0 "standard").freeShipping.eligible
        = false) ∧
    (shippingCalculator.calculate 0 "US" (some "CA") (5/4) 0 "standard").total = 153/25 ∧
    (shippingCalculator.calculate 0 "US" (some "CA") (5/4) 0 "standard").total ≠
      max 0 ((shippingCalculator.calculate 0 "US" (some "CA") (5/4) 0 "standard").baseRate +
        (shippingCalculator.calculate 0 "US" (some "CA") (5/4) 0 "standard").weightSurcharge +
        (shippingCalculator.calculate 0 "US" (some "CA") (5/4) 0 "standard").handlingFee) := by
  refine ⟨?_, ?_, ?_⟩ <;> with_unfolding_all decide

/-- C5 (amended): the reported `total` is `baseRate + weightSurcharge +
handlingFee` rounded to 2 decimals (the claimed `max(0, ·)` clamp does not
exist in the code; with a nonnegative configured handling fee the sum is
nonnegative anyway, so the `max` form shown here agrees) — and it is 0 when
free shipping is eligible and the requested method is the free method;
`weightSurcharge` is `max(0, weight − 1)` pounds times 0.50 (US) or 1.50
(international), and `handlingFee` is the configured fee. -/
theorem c5_shipping_total_amended (sc : ShippingCalculator) (now : Nat)
    (country : String) (state : Option String) (weight subtotal : ℚ)
    (method : String) (hfee : 0 ≤ sc.handlingFee) :
    (sc.calculate now country state weight subtotal method).handlingFee =
      sc.handlingFee ∧
    (sc.calculate now country state weight subtotal method).weightSurcharge =
      max 0 (weight - 1) *
        (if country = "US" then WEIGHT_SURCHARGE_US else WEIGHT_SURCHARGE_INTL) ∧
    (sc.calculate now country state weight subtotal method).total =
      (if (sc.calculate now country state weight subtotal method).freeShipping.eligible
            = true ∧
          (sc.calculate now country state weight subtotal method).freeShipping.method
            = some method
       then 0
       else max 0 (round2
         ((sc.calculate now country state weight subtotal method).baseRate +
          (sc.calculate now country state weight subtotal method).weightSurcharge +
          (sc.calculate now country state weight subtotal method).handlingFee))) := by
  have hws : (sc.calculate now country state weight subtotal method).weightSurcharge =
      max 0 (weight - 1) *
        (if country = "US" then WEIGHT_SURCHARGE_US else WEIGHT_SURCHARGE_INTL) := rfl
  have htot : (sc.calculate now country state weight subtotal method).total =
      round2 (if ((sc.calculate now country state weight subtotal method).freeShipping.eligible &&
          ((sc.calculate now country state weight subtotal method).freeShipping.method ==
            some method))
        then 0
        else (sc.calculate now country state weight subtotal method).baseRate +
          (sc.calculate now country state weight subtotal method).weightSurcharge +
          (sc.calculate now country state weight subtotal method).handlingFee) := rfl
  have hbase : 0 ≤ (sc.calculate now country state weight subtotal method).baseRate := by
    by_cases hus : country = "US"
    · have he : (sc.calculate now country state weight subtotal method).baseRate =
          jsOrQ (usRateLookup method (getUSZone state)) (usStandardRate (getUSZone state)) := by
        simp [ShippingCalculator.calculate, hus]
      rw [he]
      exact usBaseRate_nonneg method (getUSZone state)
    · have he : (sc.calculate now country state weight subtotal method).baseRate =
          jsOrQ (intlRateLookup method (getInternationalZone country))
            (intlStandardRate (getInternationalZone country)) := by
        simp [ShippingCalculator.calculate, hus]
      rw [he]
      exact intlBaseRate_nonneg method (getInternationalZone country)
  refine ⟨rfl, hws, ?_⟩
  rw [htot]
  by_cases hb : ((sc.calculate now country state weight subtotal method).freeShipping.eligible &&
      ((sc.calculate now country state weight subtotal method).freeShipping.method ==
        some method)) = true
  · rw [if_pos hb]
    have hprop := hb
    rw [Bool.and_eq_true, beq_iff_eq] at hprop
    rw [if_pos hprop]
    exact round2_zero
  · rw [if_neg hb]
    have hprop : ¬((sc.calculate now country state weight subtotal method).freeShipping.eligible
          = true ∧
        (sc.calculate now country state weight subtotal method).freeShipping.method
          = some method) := by
      intro hab
      exact hb (by rw [Bool.and_eq_true, beq_iff_eq]; exact hab)
    rw [if_neg hprop]
    have hsur : 0 ≤ (sc.calculate now country state weight subtotal method).weightSurcharge := by
      rw [hws]
      refine mul_nonneg (le_max_left 0 _) ?_
      split <;> norm_num [WEIGHT_SURCHARGE_US, WEIGHT_SURCHARGE_INTL]
    have hnn : 0 ≤ round2
        ((sc.calculate now country state weight subtotal method).baseRate +
         (sc.calculate now country state weight subtotal method).weightSurcharge +
         (sc.calculate now country state weight subtotal method).handlingFee) :=
      round2_nonneg (add_nonneg (add_nonneg hbase hsur) hfee)
    exact (max_eq_right hnn).symm

/-- Witness for C5's amended theorem: the default calculator (handling fee 0),
domestic standard shipping to zone 1 at weight 3 lb, subtotal 0. -/
theorem c5_witness :
    (shippingCalculator.calculate 0 "US" (some "CA") 3 0 "standard").total =
      (if (shippingCalculator.calculate 0 "US" (some "CA") 3 0 "standard").freeShipping.eligible
            = true ∧
          (shippingCalculator.calculate 0 "US" (some "CA") 3 0 "standard").freeShipping.method
            = some "standard"
       then 0
       else max 0 (round2
         ((shippingCalculator.calculate 0 "US" (some "CA") 3 0 "standard").baseRate +
          (shippingCalculator.calculate 0 "US" (some "CA") 3 0 "standard").weightSurcharge +
          (shippingCalculator.calculate 0 "US" (some "CA") 3 0 "standard").handlingFee))) :=
  (c5_shipping_total_amended shippingCalculator 0 "US" (some "CA") 3 0 "standard"
    (le_refl 0)).2.2

/-- C6: with free shipping enabled (the deployed singleton's configuration),
`checkFreeShipping` reports threshold 75 for US and 150 for any other country,
`eligible` exactly when the subtotal reaches the threshold, and
`amountUntilFree = round2(max(0, threshold − subtotal))` (0 when eligible). -/
theorem c6_free_shipping (sc : ShippingCalculator) (country : String)
    (subtotal : ℚ) (hen : sc.freeShippingEnabled = true) :
    (sc.checkFreeShipping country subtotal).threshold =
      some (if country = "US" then (75 : ℚ) else 150) ∧
    (sc.checkFreeShipping country subtotal).eligible =
      decide (subtotal ≥ (if country = "US" then (75 : ℚ) else 150)) ∧
    (sc.checkFreeShipping country subtotal).amountUntilFree =
      some (round2 (max 0 ((if country = "US" then (75 : ℚ) else 150) - subtotal))) := by
  unfold ShippingCalculator.checkFreeShipping
  rw [hen]
  simp only [Bool.not_true, Bool.false_eq_true, if_false,
    FREE_SHIPPING_US_threshold, FREE_SHIPPING_INTL_threshold]
  refine ⟨trivial, trivial, ?_⟩
  by_cases h : subtotal ≥ (if country = "US" then (75 : ℚ) else 150)
  · rw [if_pos (decide_eq_true h), max_eq_left (sub_nonpos.mpr h), round2_zero]
  · rw [if_neg (by simp [decide_eq_true_eq, h]),
      max_eq_right (le_of_lt (sub_pos.mpr (not_le.mp h)))]

/-- Witness for C6: the deployed singleton with `country = "US"` and subtotal
74.99 (one cent short of the threshold). -/
theorem c6_witness :
    (shippingCalculator.checkFreeShipping "US" (7499/100)).threshold =
      some (if ("US" : String) = "US" then (75 : ℚ) else 150) ∧
    (shippingCalculator.checkFreeShipping "US" (7499/100)).eligible =
      decide ((7499/100 : ℚ) ≥ (if ("US" : String) = "US" then (75 : ℚ) else 150)) ∧
    (shippingCalculator.checkFreeShipping "US" (7499/100)).amountUntilFree =
      some (round2 (max 0 ((if ("US" : String) = "US" then (75 : ℚ) else 150) - 7499/100))) :=
  c6_free_shipping shippingCalculator "US" (7499/100) rfl

/-- C9: when the rate table has no entry for the requested method at the
computed zone (for example `overnight` to a non-US country, or an unrecognized
method string), `calculate` still returns a quote whose base rate is the
standard-method rate for that zone. -/
theorem c9_method_fallback (sc : ShippingCalculator) (now : Nat)
    (country : String) (state : Option String) (weight subtotal : ℚ)
    (method : String)
    (hmiss : (if country = "US" then usRateLookup method (getUSZone state)
              else intlRateLookup method (getInternationalZone country)) = none) :
    (sc.calculate now country state weight subtotal method).baseRate =
      (if country = "US" then usStandardRate (getUSZone state)
       else intlStandardRate (getInternationalZone country)) := by
  by_cases hus : country = "US"
  · rw [if_pos hus] at hmiss ⊢
    have he : (sc.calculate now country state weight subtotal method).baseRate =
        jsOrQ (usRateLookup method (getUSZone state)) (usStandardRate (getUSZone state)) := by
      simp [ShippingCalculator.calculate, hus]
    rw [he, hmiss]
    rfl
  · rw [if_neg hus] at hmiss ⊢
    have he : (sc.calculate now country state weight subtotal method).baseRate =
        jsOrQ (intlRateLookup method (getInternationalZone country))
          (intlStandardRate (getInternationalZone country)) := by
      simp [ShippingCalculator.calculate, hus]
    rw [he, hmiss]
    rfl

/-- Witness for C9: `overnight` shipping requested to Canada — the
international rate table has no `overnight` entry, so the zone-A standard
rate is used. -/
theorem c9_witness :
    (shippingCalculator.calculate 7 "CA" none 2 0 "overnight").baseRate =
      (if ("CA" : String) = "US" then usStandardRate (getUSZone none)
       else intlStandardRate (getInternationalZone "CA")) :=
  c9_method_fallback shippingCalculator 7 "CA" none 2 0 "overnight"
    (by with_unfolding_all decide)

/-- C4: for country CA and every province, `taxAmount` is
`round2((subtotal+shipping)×0.05) + round2((subtotal+shipping)×provincialRate)`
with the provincial rate from the table (0 for unknown provinces); the
breakdown always starts with a GST line, and a provincial line — labelled
`HST (provincial portion)` for NB/NL/NS/ON/PE, `QST` for QC, `PST` otherwise —
is present if and only if the provincial rate is non-zero. -/
theorem c4_canadian_tax (tc : TaxCalculator) (province pc cat : Option String)
    (subtotal shipping : ℚ)
    (hcat : cat.getD "apparel" ∉ objectProtoKeys) :
    (tc.calculate ⟨subtotal, "CA", province, pc, cat, shipping⟩).taxAmount =
      round2 ((subtotal + shipping) * (5/100)) +
        round2 ((subtotal + shipping) * provincialRateOf province) ∧
    (tc.calculate ⟨subtotal, "CA", province, pc, cat, shipping⟩).breakdown =
      ⟨"GST", 5/100, round2 ((subtotal + shipping) * (5/100))⟩ ::
        (if provincialRateOf province = 0 then []
         else [⟨(if (match upperOpt province with
                     | some s => (["NB", "NL", "NS", "ON", "PE"] : List String).contains s
                     | none => false)
                 then "HST (provincial portion)"
                 else if upperOpt province = some "QC" then "QST" else "PST"),
                provincialRateOf province,
                round2 ((subtotal + shipping) * provincialRateOf province)⟩]) := by
  have hd : tc.calculate ⟨subtotal, "CA", province, pc, cat, shipping⟩ =
      tc.calculateCanadianTax
        (initialTaxResult ⟨subtotal, "CA", province, pc, cat, shipping⟩)
        province shipping := by
    rw [calculate_eq_noGate _ _ hcat]
    simp [TaxCalculator.calculateNoCategoryGate]
  rw [hd]
  simp only [TaxCalculator.calculateCanadianTax, initialTaxResult]
  split
  · rename_i hpos
    rw [if_neg (ne_of_gt hpos)]
    exact ⟨rfl, rfl⟩
  · rename_i hneg
    rw [if_pos (le_antisymm (not_lt.mp hneg) (provincialRate_nonneg province))]
    exact ⟨rfl, rfl⟩

/-- Witness for C4: Ontario (HST province), subtotal 100, no shipping,
default category. -/
theorem c4_witness :
    (taxCalculator.calculate ⟨100, "CA", some "ON", none, none, 0⟩).taxAmount =
      round2 ((100 + 0) * (5/100)) +
        round2 ((100 + 0) * provincialRateOf (some "ON")) ∧
    (taxCalculator.calculate ⟨100, "CA", some "ON", none, none, 0⟩).breakdown =
      ⟨"GST", 5/100, round2 ((100 + 0) * (5/100))⟩ ::
        (if provincialRateOf (some "ON") = 0 then []
         else [⟨(if (match upperOpt (some "ON") with
                     | some s => (["NB", "NL", "NS", "ON", "PE"] : List String).contains s
                     | none => false)
                 then "HST (provincial portion)"
                 else if upperOpt (some "ON") = some "QC" then "QST" else "PST"),
                provincialRateOf (some "ON"),
                round2 ((100 + 0) * provincialRateOf (some "ON"))⟩]) :=
  c4_canadian_tax taxCalculator (some "ON") none none 100 0 (by decide)

/-- With an empty nexus list and an uppercase state whose configured rate is
nonzero, the US branch taxes `subtotal + shipping` when the state is in the
shipping-taxing list and `subtotal` otherwise. -/
theorem calcUS_taxed (tc : TaxCalculator) (hnex : tc.nexusStates = [])
    (s : String) (hu : jsToUpper s = s) (r : ℚ)
    (hlook : lookup US_STATE_TAX_RATES s = some r) (hr : ¬ r = 0)
    (subtotal shipping : ℚ) (pc cat : Option String)
    (hcat : cat.getD "apparel" ∉ objectProtoKeys) :
    (tc.calculate ⟨subtotal, "US", some s, pc, cat, shipping⟩).taxAmount =
      (if statesTaxingShipping.contains s
       then round2 ((subtotal + shipping) * r)
       else round2 (subtotal * r)) := by
  have hd : tc.calculate ⟨subtotal, "US", some s, pc, cat, shipping⟩ =
      tc.calculateUSTax
        (initialTaxResult ⟨subtotal, "US", some s, pc, cat, shipping⟩)
        (some s) shipping := by
    rw [calculate_eq_noGate _ _ hcat]
    simp [TaxCalculator.calculateNoCategoryGate]
  have hup : upperOpt (some s) = some s := by simp [upperOpt, hu]
  rw [hd]
  simp only [TaxCalculator.calculateUSTax, initialTaxResult, hup, hnex,
    Option.some_bind, hlook, jsOrQ_some, if_neg hr, List.length_nil,
    gt_iff_lt, lt_irrefl, decide_False, Bool.false_and, Bool.false_eq_true,
    if_false]
  split <;> rfl

/-- With an empty nexus list and an uppercase state string whose effective
rate is zero (including states absent from the table), the US branch returns
zero tax. -/
theorem calcUS_rate_zero (tc : TaxCalculator) (hnex : tc.nexusStates = [])
    (s : String) (hu : jsToUpper s = s)
    (hlook : jsOrQ (lookup US_STATE_TAX_RATES s) 0 = 0)
    (subtotal shipping : ℚ) (pc cat : Option String)
    (hcat : cat.getD "apparel" ∉ objectProtoKeys) :
    (tc.calculate ⟨subtotal, "US", some s, pc, cat, shipping⟩).taxAmount = 0 := by
  have hd : tc.calculate ⟨subtotal, "US", some s, pc, cat, shipping⟩ =
      tc.calculateUSTax
        (initialTaxResult ⟨subtotal, "US", some s, pc, cat, shipping⟩)
        (some s) shipping := by
    rw [calculate_eq_noGate _ _ hcat]
    simp [TaxCalculator.calculateNoCategoryGate]
  have hup : upperOpt (some s) = some s := by simp [upperOpt, hu]
  rw [hd]
  simp only [TaxCalculator.calculateUSTax, initialTaxResult, hup, hnex,
    Option.some_bind, List.length_nil, gt_iff_lt, lt_irrefl, decide_False,
    Bool.false_and, Bool.false_eq_true, if_false]
  rw [if_pos hlook]

/-- Every key of the US state-rate table is already uppercase. -/
theorem us_table_keys_upper :
    ∀ p ∈ US_STATE_TAX_RATES, jsToUpper p.1 = p.1 := by
  with_unfolding_all decide

/-- Looking a table key up yields its own rate. -/
theorem us_table_lookup_self :
    ∀ p ∈ US_STATE_TAX_RATES, lookup US_STATE_TAX_RATES p.1 = some p.2 := by
  intro p hp
  fin_cases hp <;> simp [lookup, US_STATE_TAX_RATES, List.find?_cons]

/-- The five no-sales-tax states all carry rate 0 in the table. -/
theorem us_table_zero_states :
    ∀ p ∈ US_STATE_TAX_RATES,
      p.1 ∈ (["AK", "DE", "MT", "NH", "OR"] : List String) → p.2 = 0 := by
  intro p hp h
  fin_cases hp <;> first
    | exact absurd h (by decide)
    | rfl

/-- C3: with the deployed calculator (empty nexus list, category defaulted to
the taxable `apparel`), every configured US state with a nonzero rate yields
`round2((subtotal+shipping)×rate)` when in the shipping-taxing list and
`round2(subtotal×rate)` otherwise; the five no-sales-tax states AK, DE, MT,
NH, OR yield 0 for every subtotal and shipping. -/
theorem c3_us_tax_rates (p : String × ℚ) (hp : p ∈ US_STATE_TAX_RATES)
    (subtotal shipping : ℚ) :
    (p.2 ≠ 0 →
      (taxCalculator.calculate ⟨subtotal, "US", some p.1, none, none, shipping⟩).taxAmount =
        (if statesTaxingShipping.contains p.1
         then round2 ((subtotal + shipping) * p.2)
         else round2 (subtotal * p.2))) ∧
    (p.1 ∈ (["AK", "DE", "MT", "NH", "OR"] : List String) →
      (taxCalculator.calculate ⟨subtotal, "US", some p.1, none, none, shipping⟩).taxAmount
        = 0) := by
  refine ⟨fun h => ?_, fun h => ?_⟩
  · exact calcUS_taxed taxCalculator rfl p.1 (us_table_keys_upper p hp) p.2
      (us_table_lookup_self p hp) h subtotal shipping none none (by decide)
  · refine calcUS_rate_zero taxCalculator rfl p.1 (us_table_keys_upper p hp) ?_
      subtotal shipping none none (by decide)
    rw [us_table_lookup_self p hp, jsOrQ_some, us_table_zero_states p hp h]
    simp

/-- Witness for C3: California (rate 7.25%, not in the shipping-taxing list)
with subtotal 100 and shipping 10. -/
theorem c3_witness :
    (taxCalculator.calculate ⟨100, "US", some "CA", none, none, 10⟩).taxAmount =
      (if statesTaxingShipping.contains "CA"
       then round2 ((100 + 10) * (725/10000))
       else round2 (100 * (725/10000))) :=
  (c3_us_tax_rates ("CA", 725/10000) (by with_unfolding_all decide) 100 10).1
    (by with_unfolding_all decide)

end Shop
